import Mathlib

/-!
Shallow embedding of `src/app.py` (Streamlit panel-regression dashboard).

Numeric cells of the raw spreadsheet are modelled by `Cell`; real-valued
arithmetic (pandas float columns) is modelled exactly over `ℚ`.  The data
pipeline `load_and_process_data` (lines 16-57 of `app.py`) is split into its
stages: type coercion and row dropping (lines 21-32), the external model fit
(lines 37-43), the per-entity intercept aggregation (lines 44-48) and the
name merge (lines 51-54).  The prediction formula (lines 114-122) and the
wage range dictionary (lines 87-107) are embedded directly.
-/

namespace App

/-- A raw spreadsheet cell, as seen by `pd.to_numeric(..., errors='coerce')`:
either an actual number, a text value, or a missing value (NaN). -/
inductive Cell where
  | num (q : ℚ)
  | str (s : String)
  | na
deriving DecidableEq

/-- `pd.to_numeric(..., errors='coerce')` on one cell: numbers pass through,
text is parsed when it is a numeral (modelled for integer literals), anything
else becomes missing (NaN). -/
def toNumeric : Cell → Option ℚ
  | .num q => some q
  | .str s => (s.toInt?).map fun i => (i : ℚ)
  | .na => none

/-- One row of the raw sheet `dataset` after the two index coercions of
`app.py` lines 21-22 (`kode_kabupaten_kota` to `str`, `tahun` to `int`);
the six measurement columns are still raw cells. -/
structure RawRow where
  kode_kabupaten_kota : String
  nama_kabupaten_kota : String
  tahun : Int
  garis_kemiskinan : Cell
  IPM : Cell
  TPAK : Cell
  upah_minimum : Cell
  TPT : Cell
  jumlah_penduduk_miskin : Cell
deriving DecidableEq

/-- One row after `df[selected_columns].apply(pd.to_numeric, errors='coerce')`
(`app.py` line 31): measurement columns hold either a number or NaN. -/
structure Obs where
  kode_kabupaten_kota : String
  tahun : Int
  garis_kemiskinan : Option ℚ
  IPM : Option ℚ
  TPAK : Option ℚ
  upah_minimum : Option ℚ
  TPT : Option ℚ
  jumlah_penduduk_miskin : Option ℚ
deriving DecidableEq

/-- The numeric coercion of `app.py` line 31 applied to one row. -/
def coerceRow (r : RawRow) : Obs :=
  { kode_kabupaten_kota := r.kode_kabupaten_kota
    tahun := r.tahun
    garis_kemiskinan := toNumeric r.garis_kemiskinan
    IPM := toNumeric r.IPM
    TPAK := toNumeric r.TPAK
    upah_minimum := toNumeric r.upah_minimum
    TPT := toNumeric r.TPT
    jumlah_penduduk_miskin := toNumeric r.jumlah_penduduk_miskin }

/-- Does the row survive `df.dropna(subset=selected_columns)` (line 32):
all six measurement columns present? -/
def obsComplete (o : Obs) : Bool :=
  o.garis_kemiskinan.isSome && o.IPM.isSome && o.TPAK.isSome &&
  o.upah_minimum.isSome && o.TPT.isSome && o.jumlah_penduduk_miskin.isSome

/-- The row-level part of `load_and_process_data` (`app.py` lines 21-32):
coerce measurement columns to numeric, then drop rows with a missing value. -/
def normalize (rows : List RawRow) : List Obs :=
  (rows.map coerceRow).filter obsComplete

/-- Inverse injection used to feed a normalized table back through the
pipeline: a present value becomes a numeric cell, a missing one NaN. -/
def cellOfOpt : Option ℚ → Cell
  | some q => .num q
  | none => .na

/-- A normalized row rendered as a raw row again (for idempotence): the
entity code doubles as the display name, which `normalize` ignores. -/
def obsToRaw (o : Obs) : RawRow :=
  { kode_kabupaten_kota := o.kode_kabupaten_kota
    nama_kabupaten_kota := o.kode_kabupaten_kota
    tahun := o.tahun
    garis_kemiskinan := cellOfOpt o.garis_kemiskinan
    IPM := cellOfOpt o.IPM
    TPAK := cellOfOpt o.TPAK
    upah_minimum := cellOfOpt o.upah_minimum
    TPT := cellOfOpt o.TPT
    jumlah_penduduk_miskin := cellOfOpt o.jumlah_penduduk_miskin }

/-- The columns `load_and_process_data` selects from the raw sheet
(`app.py` lines 21-31): the two index columns and `selected_columns`. -/
def requiredCols : List String :=
  ["kode_kabupaten_kota", "tahun",
   "garis_kemiskinan", "IPM", "TPAK", "upah_minimum", "TPT",
   "jumlah_penduduk_miskin"]

/-- The raw sheet: the set of column names it carries, and its rows. -/
structure RawTable where
  cols : List String
  rows : List RawRow

/-- The data-loading stage of `load_and_process_data` (`app.py` lines 16-32).
Selecting an absent column in pandas raises a `KeyError` (an unclassified
exception), modelled as `Except.error "KeyError"`; the function performs no
check that the result is nonempty. -/
def load_and_process_data (t : RawTable) : Except String (List Obs) :=
  if requiredCols.all (fun c => t.cols.contains c) then
    .ok (normalize t.rows)
  else
    .error "KeyError"

/-- Arithmetic mean of a list of rationals, as pandas `.mean()`. -/
def listMean (l : List ℚ) : ℚ := l.sum / l.length

/-- The distinct entity codes of an estimated-effects table, as grouped by
`intercepts.groupby('kode_kabupaten_kota')` (`app.py` line 48). -/
def entitiesOf (effects : List (String × Int × ℚ)) : List String :=
  (effects.map (fun e => e.1)).dedup

/-- The per-period effect values of one entity. -/
def effectsOf (effects : List (String × Int × ℚ)) (k : String) : List ℚ :=
  (effects.filter (fun e => e.1 == k)).map (fun e => e.2.2)

/-- `app.py` line 48: `intercepts.groupby('kode_kabupaten_kota')['intersep']
.mean().reset_index()` — one row per distinct entity code, carrying the mean
of that entity's per-period estimated effects. -/
def unique_intercepts (effects : List (String × Int × ℚ)) :
    List (String × ℚ) :=
  (entitiesOf effects).map (fun k => (k, listMean (effectsOf effects k)))

/-- `pd.merge(unique_intercepts, nama_kabupaten, on='kode_kabupaten_kota')`
(`app.py` line 54): an inner join — each intercept row is paired with every
name row sharing its code, and codes without a name row produce nothing. -/
def mergeNames : List (String × ℚ) → List (String × String) →
    List (String × ℚ × String)
  | [], _ => []
  | (k, i) :: rest, names =>
      ((names.filter (fun q => q.1 == k)).map (fun q => (k, i, q.2))) ++
        mergeNames rest names

/-- `app.py` line 51: the `(kode, nama)` pairs of the raw sheet after
`drop_duplicates()`. -/
def nama_kabupaten (rows : List RawRow) : List (String × String) :=
  (rows.map (fun r => (r.kode_kabupaten_kota, r.nama_kabupaten_kota))).dedup

/-- The intercept-resolution stage (`app.py` lines 44-54) as the spec's
`resolve_intercepts` component: aggregate effects per entity, then join the
display names. -/
def resolve_intercepts (effects : List (String × Int × ℚ))
    (names : List (String × String)) : List (String × ℚ × String) :=
  mergeNames (unique_intercepts effects) names

/-- `app.py` lines 118-119: filter the intercept table by the selected
display name; take the first matching row's intercept, and fall back to the
mean of the whole intercept column when no row matches. -/
def intersep (uniq : List (String × ℚ × String)) (nama : String) : ℚ :=
  match uniq.filter (fun r => r.2.2 == nama) with
  | [] => listMean (uniq.map (fun r => r.2.1))
  | r :: _ => r.2.1

/-- `app.py` line 122: the prediction, from the two significant coefficients,
the two user inputs and the resolved intercept. -/
def prediksi (coef_ipm coef_upah : ℚ) (uniq : List (String × ℚ × String))
    (nama : String) (input_ipm input_upah : ℚ) : ℚ :=
  coef_ipm * input_ipm + coef_upah * input_upah + intersep uniq nama

/-- The prediction computed from an explicitly supplied intercept, used to
compare the fallback path with the mean-intercept value. -/
def prediksiWith (coef_ipm coef_upah ic input_ipm input_upah : ℚ) : ℚ :=
  coef_ipm * input_ipm + coef_upah * input_upah + ic

/-- `app.py` lines 87-98: the fixed label-to-midpoint dictionary for the
minimum-wage select slider. -/
def range_dict : List (String × ℚ) :=
  [("1jt - 1.5jt", 1250000),
   ("1.5jt - 2jt", 1750000),
   ("2jt - 2.5jt", 2250000),
   ("2.5jt - 3jt", 2750000),
   ("3jt - 3.5jt", 3250000),
   ("3.5jt - 4jt", 3750000),
   ("4jt - 4.5jt", 4250000),
   ("4.5jt - 5jt", 4750000),
   ("5jt - 5.5jt", 5250000),
   ("5.5jt - 6jt", 5750000)]

/-- The ten fixed midpoint wage values of the widget. -/
def wageMidpoints : List ℚ :=
  [1250000, 1750000, 2250000, 2750000, 3250000,
   3750000, 4250000, 4750000, 5250000, 5750000]

/-- `app.py` line 107: the wage value actually used for the prediction is
the dictionary value of the selected label. -/
def input_upah_of (selected_range : String) : Option ℚ :=
  range_dict.lookup selected_range

/-- The covariates named in the regression formula of `app.py` line 38,
without the `EntityEffects` term. -/
def formulaCovariates : List String :=
  ["IPM", "TPAK", "upah_minimum", "TPT", "jumlah_penduduk_miskin"]

/-- Modelled from the spec: the panel regression routine itself
(`PanelOLS.from_formula(...).fit(cov_type='robust')`, `linearmodels`) is an
external library, not part of `src/`; `app.py` lines 37-43 only call it.
Per spec section 4.2 the fitted model exposes a coefficient mapping whose
keys are exactly the covariates named in the formula (the entity-effect term
is absorbed, not reported), and a per-(entity, period) estimated effect.
The numeric estimation is abstracted by the `solve` and `effect` arguments. -/
structure FittedModel where
  params : List (String × ℚ)
  estimated_effects : List (String × Int × ℚ)

/-- Modelled from the spec: `fit` builds the fitted model for the fixed
formula of `app.py` line 38, reporting one coefficient per formula covariate
and one estimated effect per observation of the dataset. -/
def fit (solve : List Obs → String → ℚ)
    (effect : List Obs → String → Int → ℚ) (dataset : List Obs) :
    FittedModel :=
  { params := formulaCovariates.map (fun c => (c, solve dataset c))
    estimated_effects :=
      dataset.map (fun o =>
        (o.kode_kabupaten_kota, o.tahun,
         effect dataset o.kode_kabupaten_kota o.tahun)) }

/-- A raw row whose poverty-line cell is missing: it is dropped by
`normalize`. -/
def incompleteRow : RawRow :=
  { kode_kabupaten_kota := "3202"
    nama_kabupaten_kota := "Sukabumi"
    tahun := 2015
    garis_kemiskinan := .na
    IPM := .num 70
    TPAK := .num 65
    upah_minimum := .num 2000000
    TPT := .num 8
    jumlah_penduduk_miskin := .num 400 }

/-- A raw sheet carrying all required columns whose single row is dropped,
so the normalized result is empty. -/
def incompleteTable : RawTable :=
  { cols := requiredCols ++ ["nama_kabupaten_kota"]
    rows := [incompleteRow] }

end App

section Helpers

/-- A successful association-list lookup returns one of the stored values. -/
lemma lookup_mem_values {α β : Type} [BEq α] (l : List (α × β)) (s : α)
    (v : β) (h : l.lookup s = some v) : v ∈ l.map Prod.snd := by
  induction l with
  | nil => simp [List.lookup] at h
  | cons p t ih =>
    obtain ⟨k, b⟩ := p
    rw [List.lookup] at h
    cases hk : s == k with
    | true => rw [hk] at h; simp at h; simp [h]
    | false => rw [hk] at h; simp at h; exact List.mem_cons_of_mem _ (ih h)

/-- Looking up a key present in `l` inside the pairing `x ↦ (x, f x)` of `l`
finds `f` of that key. -/
lemma lookup_pairing (l : List String) (k : String) (f : String → ℚ)
    (hk : k ∈ l) : (l.map (fun x => (x, f x))).lookup k = some (f k) := by
  induction l with
  | nil => cases hk
  | cons a t ih =>
    simp only [List.map_cons, List.lookup]
    cases ha : k == a with
    | true =>
      have hka : k = a := eq_of_beq ha
      subst hka
      rfl
    | false =>
      have hkt : k ∈ t := by
        rcases List.mem_cons.mp hk with h | h
        · subst h; simp at ha
        · exact h
      simpa using ih hkt

/-- A normalized row round-trips through `obsToRaw` and the numeric coercion
whenever all its measurement values are present. -/
lemma coerceRow_obsToRaw (o : App.Obs) (h : App.obsComplete o = true) :
    App.coerceRow (App.obsToRaw o) = o := by
  obtain ⟨kode, tahun, g, i, tp, u, t, j⟩ := o
  simp only [App.obsComplete, Bool.and_eq_true, Option.isSome_iff_exists] at h
  obtain ⟨⟨⟨⟨⟨⟨q1, h1⟩, ⟨q2, h2⟩⟩, ⟨q3, h3⟩⟩, ⟨q4, h4⟩⟩, ⟨q5, h5⟩⟩, ⟨q6, h6⟩⟩ := h
  subst h1 h2 h3 h4 h5 h6
  rfl

/-- Filtering an inner merge by one key is the merge of the equally filtered
left table. -/
lemma mergeNames_filter_key (ints : List (String × ℚ))
    (names : List (String × String)) (k : String) :
    (App.mergeNames ints names).filter (fun r => r.1 == k) =
      App.mergeNames (ints.filter (fun p => p.1 == k)) names := by
  induction ints with
  | nil => rfl
  | cons p t ih =>
    obtain ⟨k', i⟩ := p
    cases hk : k' == k with
    | true =>
      have hkk : k' = k := eq_of_beq hk
      subst hkk
      have hblock : ((names.filter (fun q => q.1 == k')).map
          (fun q => (k', i, q.2))).filter (fun r => r.1 == k') =
          (names.filter (fun q => q.1 == k')).map (fun q => (k', i, q.2)) := by
        apply List.filter_eq_self.mpr
        intro a ha
        rcases List.mem_map.mp ha with ⟨q, _, rfl⟩
        simp
      simp only [App.mergeNames, List.filter_append]
      rw [hblock, ih, List.filter_cons_of_pos (by simp)]
      simp only [App.mergeNames]
    | false =>
      have hblock : ((names.filter (fun q => q.1 == k')).map
          (fun q => (k', i, q.2))).filter (fun r => r.1 == k) = [] := by
        apply List.filter_eq_nil_iff.mpr
        intro a ha
        rcases List.mem_map.mp ha with ⟨q, _, rfl⟩
        simp [hk]
      simp only [App.mergeNames, List.filter_append]
      rw [hblock, ih, List.filter_cons_of_neg (by simp [hk])]
      simp

/-- In the pairing of a duplicate-free key list, filtering by a present key
yields exactly that key's single entry. -/
lemma filter_key_pairing (l : List String) (hl : l.Nodup) (k : String)
    (f : String → ℚ) (hk : k ∈ l) :
    (l.map (fun x => (x, f x))).filter (fun p => p.1 == k) = [(k, f k)] := by
  induction l with
  | nil => cases hk
  | cons a t ih =>
    rcases List.mem_cons.mp hk with rfl | hkt
    · simp only [List.map_cons]
      rw [List.filter_cons_of_pos (by simp)]
      have hrest : (t.map (fun x => (x, f x))).filter
          (fun p => p.1 == k) = [] := by
        apply List.filter_eq_nil_iff.mpr
        intro p hp
        rcases List.mem_map.mp hp with ⟨x, hx, rfl⟩
        have hxk : x ≠ k := fun h => (List.nodup_cons.mp hl).1 (h ▸ hx)
        simp [hxk]
      rw [hrest]
    · have hak : a ≠ k := fun h => (List.nodup_cons.mp hl).1 (h ▸ hkt)
      simp only [List.map_cons]
      rw [List.filter_cons_of_neg (by simp [hak])]
      exact ih (List.nodup_cons.mp hl).2 hkt

end Helpers

/-- Claim C5: the resolved intercept of an entity occurring in the effects
table is the arithmetic mean of that entity's per-period estimated effects;
an entity observed in exactly one period gets exactly its single effect
value. -/
theorem unique_intercepts_mean (effects : List (String × Int × ℚ))
    (k : String) :
    (k ∈ App.entitiesOf effects →
      (App.unique_intercepts effects).lookup k =
        some (App.listMean (App.effectsOf effects k))) ∧
    (∀ (y : Int) (v : ℚ),
      effects.filter (fun e => e.1 == k) = [(k, y, v)] →
        (App.unique_intercepts effects).lookup k = some v) := by
  constructor
  · intro hk
    exact lookup_pairing _ _ _ hk
  · intro y v h
    have hmem : (k, y, v) ∈ effects := by
      have : (k, y, v) ∈ effects.filter (fun e => e.1 == k) := by
        rw [h]; exact List.mem_singleton.mpr rfl
      exact List.mem_of_mem_filter this
    have hk : k ∈ App.entitiesOf effects := by
      unfold App.entitiesOf
      rw [List.mem_dedup]
      exact List.mem_map.mpr ⟨(k, y, v), hmem, rfl⟩
    have hsingle : App.effectsOf effects k = [v] := by
      unfold App.effectsOf
      rw [h]
      rfl
    have hlk := lookup_pairing (App.entitiesOf effects) k
      (fun x => App.listMean (App.effectsOf effects x)) hk
    unfold App.unique_intercepts
    rw [hlk]
    show some (App.listMean (App.effectsOf effects k)) = some v
    rw [hsingle]
    simp [App.listMean]

/-- Witness for C5: the single-period entity "3201" with effect 5 resolves to
intercept 5. -/
theorem unique_intercepts_mean_witness :
    (App.unique_intercepts [("3201", 2015, 5)]).lookup "3201" =
      some (5 : ℚ) :=
  (unique_intercepts_mean [("3201", 2015, 5)] "3201").2 2015 5 (by rfl)

/-- Claim C6: every row of the normalized output has all six measurement
attributes present (numeric by construction), every output row is the
numeric coercion of an input row with its values unchanged (never repaired),
and a row with a missing or non-numeric measurement value never appears in
the output. -/
theorem normalize_complete (rows : List App.RawRow) :
    (∀ o ∈ App.normalize rows, App.obsComplete o = true) ∧
    (∀ o ∈ App.normalize rows, ∃ r ∈ rows, o = App.coerceRow r) ∧
    (∀ r ∈ rows, App.obsComplete (App.coerceRow r) = false →
      App.coerceRow r ∉ App.normalize rows) := by
  refine ⟨fun o ho => List.of_mem_filter ho, fun o ho => ?_, fun r _ hr hmem => ?_⟩
  · have hm : o ∈ rows.map App.coerceRow := List.mem_of_mem_filter ho
    rcases List.mem_map.mp hm with ⟨r, hr, rfl⟩
    exact ⟨r, hr, rfl⟩
  · have := List.of_mem_filter hmem
    rw [hr] at this
    cases this

/-- Witness for C6: a complete row survives normalization, via the theorem
applied to a two-row table whose second row misses a value. -/
theorem normalize_complete_witness :
    App.obsComplete
      { kode_kabupaten_kota := "3201", tahun := 2015,
        garis_kemiskinan := some 300000, IPM := some 70, TPAK := some 65,
        upah_minimum := some 2000000, TPT := some 8,
        jumlah_penduduk_miskin := some 400 } = true :=
  (normalize_complete
    [{ kode_kabupaten_kota := "3201", nama_kabupaten_kota := "Bogor",
       tahun := 2015, garis_kemiskinan := .num 300000, IPM := .num 70,
       TPAK := .num 65, upah_minimum := .num 2000000, TPT := .num 8,
       jumlah_penduduk_miskin := .num 400 },
     { kode_kabupaten_kota := "3202", nama_kabupaten_kota := "Sukabumi",
       tahun := 2015, garis_kemiskinan := .na, IPM := .num 70,
       TPAK := .num 65, upah_minimum := .num 2000000, TPT := .num 8,
       jumlah_penduduk_miskin := .num 400 }]).1
    { kode_kabupaten_kota := "3201", tahun := 2015,
      garis_kemiskinan := some 300000, IPM := some 70, TPAK := some 65,
      upah_minimum := some 2000000, TPT := some 8,
      jumlah_penduduk_miskin := some 400 }
    (by decide)

/-- Claim C8: normalization is idempotent: feeding the normalized table back
through the numeric coercion and row dropping returns it unchanged (so in
particular the observation set is the same). -/
theorem normalize_idempotent (rows : List App.RawRow) :
    App.normalize ((App.normalize rows).map App.obsToRaw) =
      App.normalize rows := by
  have hc : ∀ o ∈ App.normalize rows, App.obsComplete o = true :=
    fun o ho => List.of_mem_filter ho
  unfold App.normalize
  rw [List.map_map]
  have hmap : (App.normalize rows).map (App.coerceRow ∘ App.obsToRaw) =
      (App.normalize rows).map id :=
    List.map_congr_left (fun o ho => coerceRow_obsToRaw o (hc o ho))
  unfold App.normalize at hmap
  rw [hmap, List.map_id]
  exact List.filter_eq_self.mpr hc

/-- Claim C10: any wage value the select slider can feed into the prediction
(`input_upah = range_dict[selected_range]`) is one of the ten fixed midpoint
values; `range_dict` is a literal constant, so this is independent of the
dataset's observed wage range. -/
theorem wage_input_is_fixed_midpoint (s : String) (v : ℚ)
    (h : App.input_upah_of s = some v) : v ∈ App.wageMidpoints := by
  have hv := lookup_mem_values _ _ _ h
  simpa [App.range_dict, App.wageMidpoints] using hv

/-- Witness for C10 at the first slider label. -/
theorem wage_input_is_fixed_midpoint_witness :
    (1250000 : ℚ) ∈ App.wageMidpoints :=
  wage_input_is_fixed_midpoint "1jt - 1.5jt" 1250000 rfl

/-- Claim C3: the prediction is exactly linear in each exposed covariate
input: bumping the IPM input by d changes the prediction by `coef_ipm * d`,
and bumping the wage input by d changes it by `coef_upah * d`, the entity
and the other input held fixed. -/
theorem prediksi_linear (c1 c2 x d u : ℚ)
    (uniq : List (String × ℚ × String)) (nama : String) :
    App.prediksi c1 c2 uniq nama (x + d) u -
      App.prediksi c1 c2 uniq nama x u = c1 * d ∧
    App.prediksi c1 c2 uniq nama u (x + d) -
      App.prediksi c1 c2 uniq nama u x = c2 * d := by
  constructor <;> (unfold App.prediksi; ring)

/-- Claim C1: whenever the selected name resolves (the filtered intercept
table is nonempty), the prediction is
`coef_ipm * input_ipm + coef_upah * input_upah + (that entity's intercept)`;
in particular with intercepts A=100, B=200, coefficients 10 and 0.001,
entity "A" and inputs 70 and 2000000 it is exactly 2800. -/
theorem prediksi_formula (c1 c2 ipm upah ic : ℚ)
    (uniq : List (String × ℚ × String)) (nama k n : String)
    (rest : List (String × ℚ × String))
    (h : uniq.filter (fun r => r.2.2 == nama) = (k, ic, n) :: rest) :
    App.prediksi c1 c2 uniq nama ipm upah = c1 * ipm + c2 * upah + ic ∧
    App.prediksi 10 (1 / 1000) [("A", 100, "A"), ("B", 200, "B")] "A"
      70 2000000 = 2800 := by
  constructor
  · unfold App.prediksi App.intersep
    rw [h]
  · norm_num [App.prediksi, App.intersep, App.listMean]

/-- Witness for C1: the concrete scenario of the spec, via the theorem. -/
theorem prediksi_formula_witness :
    App.prediksi 10 (1 / 1000) [("A", 100, "A"), ("B", 200, "B")] "A"
      70 2000000 = 10 * 70 + (1 / 1000) * 2000000 + 100 :=
  (prediksi_formula 10 (1 / 1000) 70 2000000 100
    [("A", 100, "A"), ("B", 200, "B")] "A" "A" "A" [] (by rfl)).1

/-- Claim C2: a selected name matching no row of the intercept table does not
fail and predicts exactly as if the mean of all intercepts were the entity
intercept, while a matching name uses that entity's own (first matching
row's) intercept. -/
theorem prediksi_unknown_entity_fallback
    (uniq : List (String × ℚ × String)) (nama : String) :
    (uniq.filter (fun r => r.2.2 == nama) = [] →
      ∀ c1 c2 ipm upah : ℚ,
        App.prediksi c1 c2 uniq nama ipm upah =
          App.prediksiWith c1 c2
            (App.listMean (uniq.map (fun r => r.2.1))) ipm upah) ∧
    (∀ (k n : String) (ic : ℚ) (rest : List (String × ℚ × String)),
      uniq.filter (fun r => r.2.2 == nama) = (k, ic, n) :: rest →
        App.intersep uniq nama = ic) := by
  constructor
  · intro h c1 c2 ipm upah
    unfold App.prediksi App.prediksiWith App.intersep
    rw [h]
  · intro k n ic rest h
    unfold App.intersep
    rw [h]

/-- Witness for C2: unknown entity "Z" over intercepts 100 and 200 predicts
with the mean intercept 150, giving the spec's value 2850. -/
theorem prediksi_unknown_entity_fallback_witness :
    App.prediksi 10 (1 / 1000) [("A", 100, "A"), ("B", 200, "B")] "Z"
      70 2000000 =
      App.prediksiWith 10 (1 / 1000)
        (App.listMean [100, 200]) 70 2000000 :=
  (prediksi_unknown_entity_fallback
    [("A", 100, "A"), ("B", 200, "B")] "Z").1 (by rfl) 10 (1 / 1000)
    70 2000000

/-- Claim C7: the fitted model's coefficient mapping has exactly the formula
covariates IPM, TPAK, upah_minimum, TPT, jumlah_penduduk_miskin as its key
set, with no entry for the absorbed `EntityEffects` term. -/
theorem fit_params_keys (solve : List App.Obs → String → ℚ)
    (effect : List App.Obs → String → Int → ℚ) (dataset : List App.Obs) :
    (App.fit solve effect dataset).params.map Prod.fst =
      App.formulaCovariates ∧
    "EntityEffects" ∉ (App.fit solve effect dataset).params.map Prod.fst := by
  constructor
  · simp [App.fit, Function.comp_def]
  · simp [App.fit, App.formulaCovariates]

/-- Claim C4 counterexample: entity "3201" occurs in the effects table but
has no row in the name table; the resolved mapping is empty, so the entity
is dropped by the inner merge instead of receiving a fallback label. -/
theorem resolve_intercepts_drops_unnamed :
    "3201" ∈ App.entitiesOf [("3201", 2015, 5)] ∧
    App.resolve_intercepts [("3201", 2015, 5)] [("9999", "Bogor")] = [] := by
  constructor
  · decide
  · rfl

/-- Claim C4 amended: the grouped intercept table has exactly one entry per
distinct entity of the effects table; after the inner name merge, an entity
with exactly one name row keeps exactly one entry, while an entity with no
name row is dropped from the final mapping (no fallback label). -/
theorem resolve_intercepts_entries (effects : List (String × Int × ℚ))
    (names : List (String × String)) :
    ((App.unique_intercepts effects).map Prod.fst = App.entitiesOf effects ∧
      (App.entitiesOf effects).Nodup) ∧
    (∀ k, k ∈ App.entitiesOf effects →
      ((names.filter (fun q => q.1 == k)).length = 1 →
        ((App.resolve_intercepts effects names).filter
          (fun r => r.1 == k)).length = 1) ∧
      (names.filter (fun q => q.1 == k) = [] →
        (App.resolve_intercepts effects names).filter
          (fun r => r.1 == k) = [])) := by
  have hnd : (App.entitiesOf effects).Nodup := List.nodup_dedup _
  constructor
  · exact ⟨by simp [App.unique_intercepts, Function.comp_def], hnd⟩
  · intro k hk
    have hfilter : (App.unique_intercepts effects).filter (fun p => p.1 == k)
        = [(k, App.listMean (App.effectsOf effects k))] :=
      filter_key_pairing _ hnd k _ hk
    have hmf := mergeNames_filter_key (App.unique_intercepts effects) names k
    constructor
    · intro hlen
      unfold App.resolve_intercepts
      rw [hmf, hfilter]
      simp [App.mergeNames, hlen]
    · intro hnil
      unfold App.resolve_intercepts
      rw [hmf, hfilter]
      simp [App.mergeNames, hnil]

/-- Witness for C4 amended: one entity, one matching name row, one entry. -/
theorem resolve_intercepts_entries_witness :
    ((App.resolve_intercepts [("3201", 2015, (5 : ℚ))]
      [("3201", "Bogor")]).filter (fun r => r.1 == "3201")).length = 1 :=
  ((resolve_intercepts_entries [("3201", 2015, 5)] [("3201", "Bogor")]).2
    "3201" (by decide)).1 (by decide)

/-- Claim C9 counterexample: a table with every required column whose rows
are all dropped produces `Except.ok []` — an empty result set after
dropping, yet no error of any kind is signalled. -/
theorem load_no_error_on_empty_result :
    App.load_and_process_data App.incompleteTable = Except.ok [] ∧
    App.normalize App.incompleteTable.rows = [] := by
  constructor
  · rfl
  · rfl

/-- Claim C9 amended: the loading stage fails exactly when a required column
is absent, and the failure is an unclassified pandas `KeyError`, not a
distinguished `DataError`; when all required columns are present it returns
the normalized rows, with no emptiness check. -/
theorem load_error_iff_missing_column (t : App.RawTable) :
    (App.load_and_process_data t = Except.error "KeyError" ↔
      App.requiredCols.all (fun c => t.cols.contains c) = false) ∧
    (App.requiredCols.all (fun c => t.cols.contains c) = true →
      App.load_and_process_data t = Except.ok (App.normalize t.rows)) := by
  by_cases hb : App.requiredCols.all (fun c => t.cols.contains c) = true
  · refine ⟨⟨fun h => ?_, fun h => ?_⟩, fun _ => ?_⟩
    · unfold App.load_and_process_data at h
      rw [if_pos hb] at h
      cases h
    · rw [hb] at h
      cases h
    · unfold App.load_and_process_data
      rw [if_pos hb]
  · simp only [Bool.not_eq_true] at hb
    refine ⟨⟨fun _ => hb, fun _ => ?_⟩, fun h => ?_⟩
    · unfold App.load_and_process_data
      rw [if_neg (by rw [hb]; simp)]
    · rw [hb] at h
      cases h

/-- Witness for C9 amended: the all-columns table with one dropped row loads
without error. -/
theorem load_error_iff_missing_column_witness :
    App.load_and_process_data App.incompleteTable =
      Except.ok (App.normalize App.incompleteTable.rows) :=
  (load_error_iff_missing_column App.incompleteTable).2 (by rfl)
